import Mathlib

/-
  Shallow embedding of the `dioxus-portal` library (src/src/lib.rs and
  src/src/rect_observer.rs).

  Conventions of the embedding:
  * `f64` coordinates are modelled by `ℚ` (the placement solver uses only
    addition, subtraction, multiplication by the literal 0.5, `min`/`max` and
    comparisons, so every computation is exact and total; there is no division
    by a variable anywhere in the source).
  * The registry `Signal<HashMap<PortalId, PortalEntryData>>` is modelled as an
    association list `List (Nat × PortalEntryData)` whose list order stands for
    the `HashMap`'s (unspecified) iteration order.
  * `entries.get_mut(&id).unwrap()` followed by a field mutation is modelled by
    `registry_update`, which returns `none` when the id is absent: `none`
    models the `unwrap` panic.
  * Framework-only payloads (`Element` children, `Vec<Attribute>`) are outside
    the model; the `style` strings of content/overlay props are kept so that
    registrations are non-degenerate values.
-/

namespace DioxusPortal

-- ------ Types for placement control (src/src/lib.rs lines 23-42) ------

inductive Alignment where
  | Start
  | Center
  | End
deriving DecidableEq, Repr

inductive Spread where
  | Inside
  | Outside
deriving DecidableEq, Repr

inductive OverflowPolicy where
  | Ignore
  | Shrink
  | Clamp
  | Flip
deriving DecidableEq, Repr

-- ------ Geometry (euclid Point2D/Size2D/Rect, src/src/rect_observer.rs line 14) ------

structure PointQ where
  x : ℚ
  y : ℚ
deriving DecidableEq, Repr

structure SizeQ where
  width : ℚ
  height : ℚ
deriving DecidableEq, Repr

structure Rect where
  origin : PointQ
  size : SizeQ
deriving DecidableEq, Repr

def Rect.min_x (r : Rect) : ℚ := r.origin.x

def Rect.max_x (r : Rect) : ℚ := r.origin.x + r.size.width

def Rect.min_y (r : Rect) : ℚ := r.origin.y

def Rect.max_y (r : Rect) : ℚ := r.origin.y + r.size.height

/-- `std::ops::Range<f64>` as used by the solver. -/
structure RangeQ where
  start : ℚ
  «end» : ℚ
deriving DecidableEq, Repr

-- ------ AxisParam (src/src/lib.rs lines 324-330) ------

structure AxisParam where
  alignment : Alignment
  spread : Spread
  offset : ℚ
  overflow_policy : OverflowPolicy
deriving DecidableEq, Repr

-- ------ Placement solver (src/src/lib.rs lines 490-583) ------

/-- The `desired` range computed by the first `match` of `calc_content_range`
(src/src/lib.rs lines 496-532). -/
def desired_range (length : ℚ) (param : AxisParam) (base : RangeQ) : RangeQ :=
  match param.alignment, param.spread with
  | Alignment.Center, _ =>
      let base_point := (base.start + base.«end») * 0.5 + param.offset
      { start := base_point - length * 0.5, «end» := base_point + length * 0.5 }
  | Alignment.Start, Spread.Inside =>
      let base_point := base.start + param.offset
      { start := base_point, «end» := base_point + length }
  | Alignment.Start, Spread.Outside =>
      let base_point := base.start - param.offset
      { start := base_point - length, «end» := base_point }
  | Alignment.End, Spread.Inside =>
      let base_point := base.«end» - param.offset
      { start := base_point - length, «end» := base_point }
  | Alignment.End, Spread.Outside =>
      let base_point := base.«end» + param.offset
      { start := base_point, «end» := base_point + length }

/-- `f64::max` on finite values: returns the greater argument.  Written as an
explicit conditional (rather than `Max ℚ`) so that concrete solver runs reduce
inside the kernel. -/
def qmax (a b : ℚ) : ℚ := if a ≤ b then b else a

/-- `f64::min` on finite values: returns the smaller argument. -/
def qmin (a b : ℚ) : ℚ := if b ≤ a then b else a

/-- `if param.alignment == Alignment::Start { End } else { Start }`
(src/src/lib.rs lines 569-573). -/
def flip_alignment (a : Alignment) : Alignment :=
  if a = Alignment.Start then Alignment.End else Alignment.Start

/-- Measure used only to justify termination of `calc_content_range`: the one
recursive call (the `Flip` fallback) carries `overflow_policy = Clamp`. -/
def policy_rank : OverflowPolicy → Nat
  | OverflowPolicy.Flip => 1
  | _ => 0

/-- `calc_content_range` (src/src/lib.rs lines 490-583): computes the desired
range and then applies the overflow policy against `bounds`.  The `Flip`
fallback recurses once with the opposite alignment and policy `Clamp`. -/
def calc_content_range (length : ℚ) (param : AxisParam) (base bounds : RangeQ) :
    RangeQ :=
  let desired := desired_range length param base
  match _hpol : param.overflow_policy, param.alignment with
  | OverflowPolicy.Ignore, _ => desired
  | OverflowPolicy.Shrink, _ =>
      { start := qmax desired.start bounds.start,
        «end» := qmin desired.«end» bounds.«end» }
  | OverflowPolicy.Clamp, Alignment.Center => desired
  | OverflowPolicy.Clamp, Alignment.Start =>
      if bounds.«end» < desired.«end» then
        { start := bounds.«end» - length, «end» := bounds.«end» }
      else desired
  | OverflowPolicy.Clamp, Alignment.End =>
      if desired.start < bounds.start then
        { start := bounds.start, «end» := bounds.start + length }
      else desired
  | OverflowPolicy.Flip, Alignment.Center => desired
  | OverflowPolicy.Flip, _ =>
      if bounds.start ≤ desired.start ∧ desired.«end» ≤ bounds.«end» then desired
      else
        calc_content_range length
          { spread := param.spread, offset := param.offset,
            alignment := flip_alignment param.alignment,
            overflow_policy := OverflowPolicy.Clamp } base bounds
termination_by policy_rank param.overflow_policy
decreasing_by
  simp [policy_rank, _hpol]

/-- Fuel-indexed mirror of `calc_content_range`; `none` models running out of
recursion depth.  Used to state that the `Flip` recursion of the source always
terminates after at most one recursive call. -/
def calc_content_range_fuel :
    Nat → ℚ → AxisParam → RangeQ → RangeQ → Option RangeQ
  | 0, _, _, _, _ => none
  | fuel + 1, length, param, base, bounds =>
      let desired := desired_range length param base
      match param.overflow_policy, param.alignment with
      | OverflowPolicy.Ignore, _ => some desired
      | OverflowPolicy.Shrink, _ =>
          some { start := qmax desired.start bounds.start,
                 «end» := qmin desired.«end» bounds.«end» }
      | OverflowPolicy.Clamp, Alignment.Center => some desired
      | OverflowPolicy.Clamp, Alignment.Start =>
          some (if bounds.«end» < desired.«end» then
                  { start := bounds.«end» - length, «end» := bounds.«end» }
                else desired)
      | OverflowPolicy.Clamp, Alignment.End =>
          some (if desired.start < bounds.start then
                  { start := bounds.start, «end» := bounds.start + length }
                else desired)
      | OverflowPolicy.Flip, Alignment.Center => some desired
      | OverflowPolicy.Flip, _ =>
          if bounds.start ≤ desired.start ∧ desired.«end» ≤ bounds.«end» then
            some desired
          else
            calc_content_range_fuel fuel length
              { spread := param.spread, offset := param.offset,
                alignment := flip_alignment param.alignment,
                overflow_policy := OverflowPolicy.Clamp } base bounds

-- ------ Props and registry records (src/src/lib.rs lines 55-114, 276-330) ------

/-- `PortalContentProps` (src/src/lib.rs lines 98-105); the `attributes` and
`children` fields are framework values outside the model. -/
structure PortalContentProps where
  style : String
deriving DecidableEq, Repr

/-- `PortalOverlayProps` (src/src/lib.rs lines 107-114); the `attributes` and
`children` fields are framework values outside the model. -/
structure PortalOverlayProps where
  style : String
deriving DecidableEq, Repr

/-- `PortalEntryData` (src/src/lib.rs lines 309-321).  `PortalId` is modelled
by `Nat` (the ids are allocated from a monotone `u64` counter). -/
structure PortalEntryData where
  id : Nat
  «open» : Bool
  layer : Int
  has_anchor_component : Bool
  measured_anchor_rect : Option Rect
  custom_anchor_rect : Option Rect
  vertical_param : AxisParam
  horizontal_param : AxisParam
  content : Option PortalContentProps
  overlay : Option PortalOverlayProps
deriving DecidableEq, Repr

/-- `PortalProps` (src/src/lib.rs lines 55-87), placement-relevant fields. -/
structure PortalProps where
  «open» : Bool
  layer : Int
  anchor_rect : Option Rect
  vertical_alignment : Alignment
  vertical_spread : Spread
  vertical_offset : ℚ
  vertical_overflow_policy : OverflowPolicy
  horizontal_alignment : Alignment
  horizontal_spread : Spread
  horizontal_offset : ℚ
  horizontal_overflow_policy : OverflowPolicy
deriving DecidableEq, Repr

/-- The `#[props(default = ...)]` values of `PortalProps`
(src/src/lib.rs lines 57-84). -/
def default_portal_props : PortalProps :=
  { «open» := false, layer := 0, anchor_rect := none,
    vertical_alignment := Alignment.End, vertical_spread := Spread.Outside,
    vertical_offset := 0, vertical_overflow_policy := OverflowPolicy.Clamp,
    horizontal_alignment := Alignment.Center, horizontal_spread := Spread.Inside,
    horizontal_offset := 0, horizontal_overflow_policy := OverflowPolicy.Clamp }

/-- The `entry_data` record built by the `Portal` component before insertion
(src/src/lib.rs lines 208-235). -/
def mk_portal_entry (id : Nat) (props : PortalProps) : PortalEntryData :=
  { id := id,
    «open» := props.«open»,
    layer := props.layer,
    vertical_param :=
      { alignment := props.vertical_alignment, spread := props.vertical_spread,
        offset := props.vertical_offset,
        overflow_policy := props.vertical_overflow_policy },
    horizontal_param :=
      { alignment := props.horizontal_alignment,
        spread := props.horizontal_spread,
        offset := props.horizontal_offset,
        overflow_policy := props.horizontal_overflow_policy },
    has_anchor_component := false,
    measured_anchor_rect := none,
    custom_anchor_rect := props.anchor_rect,
    content := none,
    overlay := none }

-- ------ Registry (Signal<HashMap<PortalId, PortalEntryData>>) ------

/-- The registry map.  The list order models the `HashMap`'s iteration order,
which the Rust standard library leaves unspecified (it is hash-seed dependent
and unrelated to insertion order); keys are unique. -/
abbrev Registry := List (Nat × PortalEntryData)

/-- `entries.get(&id)` on the association list. -/
def reg_lookup : Registry → Nat → Option PortalEntryData
  | [], _ => none
  | (k, v) :: rest, id => if k = id then some v else reg_lookup rest id

/-- `entries.insert(id, data)`: replaces the value if the key is present. -/
def reg_insert (reg : Registry) (id : Nat) (e : PortalEntryData) : Registry :=
  match reg with
  | [] => [(id, e)]
  | (k, v) :: rest =>
      if k = id then (id, e) :: rest else (k, v) :: reg_insert rest id e

/-- `entries.remove(&id)`. -/
def reg_remove : Registry → Nat → Registry
  | [], _ => []
  | (k, v) :: rest, id => if k = id then rest else (k, v) :: reg_remove rest id

/-- `entries.get_mut(&id).unwrap()` followed by a field mutation
(the shape of every registry update in `PortalAnchor`, `PortalContent` and
`PortalOverlay`): `none` models the `unwrap` panic on an absent id. -/
def registry_update (reg : Registry) (id : Nat)
    (f : PortalEntryData → PortalEntryData) : Option Registry :=
  match reg_lookup reg id with
  | none => none
  | some e => some (reg_insert reg id (f e))

/-- `PortalAnchor` body: `entry.has_anchor_component = true;
entry.measured_anchor_rect = rect();` (src/src/lib.rs lines 131-132). -/
def anchor_mount_update (r : Option Rect) (e : PortalEntryData) :
    PortalEntryData :=
  { e with has_anchor_component := true, measured_anchor_rect := r }

/-- `PortalAnchor` drop: `entry.has_anchor_component = false;
entry.measured_anchor_rect = None;` (src/src/lib.rs lines 139-140). -/
def anchor_unmount_update (e : PortalEntryData) : PortalEntryData :=
  { e with has_anchor_component := false, measured_anchor_rect := none }

/-- `PortalContent` body: `entry.content = Some(props);`
(src/src/lib.rs line 165). -/
def content_mount_update (p : PortalContentProps) (e : PortalEntryData) :
    PortalEntryData :=
  { e with content := some p }

/-- `PortalContent` drop: `entry.content = None;` (src/src/lib.rs line 171). -/
def content_unmount_update (e : PortalEntryData) : PortalEntryData :=
  { e with content := none }

/-- `PortalOverlay` body: `entry.overlay = Some(props);`
(src/src/lib.rs line 187). -/
def overlay_mount_update (p : PortalOverlayProps) (e : PortalEntryData) :
    PortalEntryData :=
  { e with overlay := some p }

/-- `PortalOverlay` drop as written in the source: `entry.content = None;`
(src/src/lib.rs line 193).  Note that it assigns the `content` field, not the
`overlay` field. -/
def overlay_unmount_update (e : PortalEntryData) : PortalEntryData :=
  { e with content := none }

-- ------ Outlet ordering (src/src/lib.rs lines 345-362) ------

/-- Stable insertion into a layer-sorted list of `(id, layer)` pairs: the new
pair goes after every pair of smaller-or-equal layer, matching the stability
guarantee of Rust's `sort_by_key`. -/
def insert_sorted_by_layer (x : Nat × Int) :
    List (Nat × Int) → List (Nat × Int)
  | [] => [x]
  | y :: ys =>
      if x.2 ≤ y.2 then x :: y :: ys else y :: insert_sorted_by_layer x ys

/-- Stable sort by layer (Rust `Vec::sort_by_key` is a stable sort). -/
def sort_by_layer : List (Nat × Int) → List (Nat × Int)
  | [] => []
  | x :: xs => insert_sorted_by_layer x (sort_by_layer xs)

/-- The `(id, layer)` pairs of the open entries, in `values()` iteration
order (src/src/lib.rs lines 347-351). -/
def open_layer_pairs (values : List PortalEntryData) : List (Nat × Int) :=
  (values.filter (fun d => d.«open»)).map (fun d => (d.id, d.layer))

/-- `sorted_ids` of `PortalOutlet` (src/src/lib.rs lines 345-354): open ids,
stably sorted ascending by layer, starting from `values()` iteration order. -/
def snapshot_open_sorted_by_layer (values : List PortalEntryData) : List Nat :=
  (sort_by_layer (open_layer_pairs values)).map Prod.fst

/-- `overlay_id` of `PortalOutlet` (src/src/lib.rs lines 356-362):
`sorted_ids.iter().rfind(|id| entries.get(id).unwrap().overlay.is_some())`.
`rfind` returns the last matching element; the ids are drawn from the same
registry snapshot, so the lookup always succeeds. -/
def topmost_with_overlay (entries : Registry) (sorted_ids : List Nat) :
    Option Nat :=
  sorted_ids.reverse.find?
    (fun id => ((reg_lookup entries id).map (fun e => e.overlay.isSome)).getD false)

/-- The ids for which `PortalOutlet` emits a `PortalOverlayEntry`
(src/src/lib.rs lines 379-384): exactly those `id` in the sorted sequence with
`overlay_id == Some(id)`. -/
def rendered_overlay_ids (entries : Registry) (sorted_ids : List Nat) :
    List Nat :=
  sorted_ids.filter (fun id => topmost_with_overlay entries sorted_ids == some id)

-- ------ calc_content_position (src/src/lib.rs lines 585-644) ------

/-- `calc_content_position`: per-axis solver runs combined into a point; with
no anchor the outlet bounds serve as both base and bounds and `spread` is
forced to `Inside` on both axes. -/
def calc_content_position (data : PortalEntryData) (content_size : SizeQ)
    (anchor : Option Rect) (bounds : Rect) : PointQ :=
  let bounds_v : RangeQ := { start := bounds.min_y, «end» := bounds.max_y }
  let bounds_h : RangeQ := { start := bounds.min_x, «end» := bounds.max_x }
  match anchor with
  | some anchor =>
      let anchor_v : RangeQ := { start := anchor.min_y, «end» := anchor.max_y }
      let anchor_h : RangeQ := { start := anchor.min_x, «end» := anchor.max_x }
      let range_v :=
        calc_content_range content_size.height data.vertical_param anchor_v bounds_v
      let range_h :=
        calc_content_range content_size.width data.horizontal_param anchor_h bounds_h
      { x := range_h.start, y := range_v.start }
  | none =>
      let param_v := { data.vertical_param with spread := Spread.Inside }
      let param_h := { data.horizontal_param with spread := Spread.Inside }
      let range_v :=
        calc_content_range content_size.height param_v bounds_v bounds_v
      let range_h :=
        calc_content_range content_size.width param_h bounds_h bounds_h
      { x := range_h.start, y := range_v.start }

-- ------ Helper lemmas ------

/-- Any fuel above `policy_rank` of the overflow policy makes the fueled mirror
agree with the solver: the `Flip` fallback recurses exactly once, because the
recursive call carries `overflow_policy = Clamp`. -/
theorem calc_content_range_fuel_spec (n : Nat) (length : ℚ) (param : AxisParam)
    (base bounds : RangeQ) (h : policy_rank param.overflow_policy < n) :
    calc_content_range_fuel n length param base bounds =
      some (calc_content_range length param base bounds) := by
  induction n generalizing param with
  | zero => exact absurd h (Nat.not_lt_zero _)
  | succ n ih =>
      obtain ⟨al, sp, off, pol⟩ := param
      cases pol <;> cases al <;>
          rw [calc_content_range.eq_def] <;>
          simp only [calc_content_range_fuel] <;>
          try rfl
      all_goals
        split <;>
          first
            | rfl
            | exact ih _ (by
                have h1 : (1 : Nat) < n + 1 := by simpa [policy_rank] using h
                simpa [policy_rank] using Nat.lt_of_succ_lt_succ h1)

/-- Fuel 2 always suffices for every input. -/
theorem calc_content_range_fuel_two (length : ℚ) (param : AxisParam)
    (base bounds : RangeQ) :
    calc_content_range_fuel 2 length param base bounds =
      some (calc_content_range length param base bounds) := by
  apply calc_content_range_fuel_spec
  cases param.overflow_policy <;> simp [policy_rank]

/-- Transport a concrete evaluation of the fueled mirror to the solver itself;
the fueled mirror is structurally recursive, so its values are decidable by
kernel reduction. -/
theorem calc_content_range_eval (length : ℚ) (param : AxisParam)
    (base bounds r : RangeQ)
    (h : calc_content_range_fuel 2 length param base bounds = some r) :
    calc_content_range length param base bounds = r := by
  have h2 := calc_content_range_fuel_two length param base bounds
  rw [h] at h2
  exact (Option.some.inj h2).symm

theorem le_qmax_right (a b : ℚ) : b ≤ qmax a b := by
  unfold qmax
  split
  · exact le_refl b
  · exact le_of_not_le (by assumption)

theorem qmin_le_right (a b : ℚ) : qmin a b ≤ b := by
  unfold qmin
  split
  · exact le_refl b
  · exact le_of_not_le (by assumption)

theorem qmax_eq_left {a b : ℚ} (h : b ≤ a) : qmax a b = a := by
  unfold qmax
  split
  · exact le_antisymm h (by assumption)
  · rfl

theorem qmin_eq_left {a b : ℚ} (h : a ≤ b) : qmin a b = a := by
  unfold qmin
  split
  · exact le_antisymm (by assumption) h
  · rfl

theorem qmax_eq_right {a b : ℚ} (h : a ≤ b) : qmax a b = b := if_pos h

theorem qmin_eq_right {a b : ℚ} (h : b ≤ a) : qmin a b = b := if_pos h

/-- With policy `Ignore` the solver returns the desired range unchanged. -/
theorem calc_ignore_eq (length : ℚ) (param : AxisParam) (base bounds : RangeQ)
    (hpol : param.overflow_policy = OverflowPolicy.Ignore) :
    calc_content_range length param base bounds =
      desired_range length param base := by
  rw [calc_content_range.eq_def, hpol]

/-- With policy `Shrink` the solver clamps the two endpoints one-sidedly. -/
theorem calc_shrink_eq (length : ℚ) (param : AxisParam) (base bounds : RangeQ)
    (hpol : param.overflow_policy = OverflowPolicy.Shrink) :
    calc_content_range length param base bounds =
      { start := qmax (desired_range length param base).start bounds.start,
        «end» := qmin (desired_range length param base).«end» bounds.«end» } := by
  rw [calc_content_range.eq_def, hpol]

/-- With policy `Flip` and a non-`Center` alignment the solver keeps the
desired range when it fits, and otherwise re-runs itself on the flipped
parameter with policy `Clamp`. -/
theorem calc_flip_eq (length : ℚ) (param : AxisParam) (base bounds : RangeQ)
    (hpol : param.overflow_policy = OverflowPolicy.Flip)
    (hal : param.alignment ≠ Alignment.Center) :
    calc_content_range length param base bounds =
      if bounds.start ≤ (desired_range length param base).start ∧
          (desired_range length param base).«end» ≤ bounds.«end» then
        desired_range length param base
      else
        calc_content_range length
          { alignment := flip_alignment param.alignment,
            spread := param.spread, offset := param.offset,
            overflow_policy := OverflowPolicy.Clamp } base bounds := by
  rw [calc_content_range.eq_def, hpol]
  cases hA : param.alignment
  · rfl
  · exact absurd hA hal
  · rfl

/-- The desired range always has size exactly `length`. -/
theorem desired_range_size (length : ℚ) (param : AxisParam) (base : RangeQ) :
    (desired_range length param base).«end» -
      (desired_range length param base).start = length := by
  obtain ⟨al, sp, off, pol⟩ := param
  cases al <;> cases sp <;> simp [desired_range] <;> ring

/-- Closed form of the desired range for `Center` alignment. -/
theorem desired_range_center (length : ℚ) (param : AxisParam) (base : RangeQ)
    (hal : param.alignment = Alignment.Center) :
    desired_range length param base =
      { start := (base.start + base.«end») * 0.5 + param.offset - length * 0.5,
        «end» := (base.start + base.«end») * 0.5 + param.offset + length * 0.5 } := by
  obtain ⟨al, sp, off, pol⟩ := param
  change al = Alignment.Center at hal
  subst hal
  cases sp <;> rfl

/-- With `Center` alignment every overflow policy returns the desired range
when it already fits inside the bounds. -/
theorem calc_center_fits (length : ℚ) (param : AxisParam) (base bounds : RangeQ)
    (hal : param.alignment = Alignment.Center)
    (h1 : bounds.start ≤ (desired_range length param base).start)
    (h2 : (desired_range length param base).«end» ≤ bounds.«end») :
    calc_content_range length param base bounds =
      desired_range length param base := by
  rw [calc_content_range.eq_def, hal]
  cases hpol : param.overflow_policy
  · rfl
  · show RangeQ.mk (qmax _ _) (qmin _ _) = _
    rw [qmax_eq_left h1, qmin_eq_left h2]
  · rfl
  · rfl

-- ------ Sample data for concrete runs ------

/-- A fixed axis parameter used to populate sample records. -/
def sample_axis : AxisParam :=
  { alignment := Alignment.End, spread := Spread.Outside, offset := 0,
    overflow_policy := OverflowPolicy.Clamp }

/-- A sample registry record for portal id 1. -/
def sample_entry : PortalEntryData :=
  { id := 1, «open» := true, layer := 0, has_anchor_component := false,
    measured_anchor_rect := none, custom_anchor_rect := none,
    vertical_param := sample_axis, horizontal_param := sample_axis,
    content := none, overlay := none }

/-- A sample record that has both a content and an overlay registration. -/
def sample_entry_full : PortalEntryData :=
  { id := 7, «open» := true, layer := 0, has_anchor_component := false,
    measured_anchor_rect := none, custom_anchor_rect := none,
    vertical_param := sample_axis, horizontal_param := sample_axis,
    content := some { style := "content-style" },
    overlay := some { style := "overlay-style" } }

-- ------ Claim theorems ------

/-- C10: a `Portal` created with the default props registers a record with
`open = false`, `layer = 0`, vertical axis `(End, Outside, 0, Clamp)`,
horizontal axis `(Center, Inside, 0, Clamp)`, no custom anchor rectangle, and
empty anchor/content/overlay registrations. -/
theorem portal_default_props_registered_record (id : Nat) :
    mk_portal_entry id default_portal_props =
      { id := id, «open» := false, layer := 0,
        has_anchor_component := false, measured_anchor_rect := none,
        custom_anchor_rect := none,
        vertical_param :=
          { alignment := Alignment.End, spread := Spread.Outside,
            offset := 0, overflow_policy := OverflowPolicy.Clamp },
        horizontal_param :=
          { alignment := Alignment.Center, spread := Spread.Inside,
            offset := 0, overflow_policy := OverflowPolicy.Clamp },
        content := none, overlay := none } := rfl

/-- C2: the claim says `PortalOverlay` unmount sets the record's `overlay`
registration to `null` and leaves `content` unchanged; the drop handler as
written (src/src/lib.rs line 193) instead clears `content` and leaves
`overlay` registered.  Evaluated here on a record carrying both
registrations, through the registry update the drop performs. -/
theorem overlay_unmount_clears_content_not_overlay :
    (overlay_unmount_update sample_entry_full).overlay =
        some { style := "overlay-style" }
  ∧ (overlay_unmount_update sample_entry_full).content = none
  ∧ registry_update [(7, sample_entry_full)] 7 overlay_unmount_update =
      some [(7, { sample_entry_full with content := none })] :=
  ⟨rfl, rfl, rfl⟩

/-- C1 (counterexample): after `register(1, e)` then `remove(1)`, the anchor
unmount update targeting id 1 does not leave the registry unchanged as a
silent no-op — it hits `Option::unwrap` on `None` (modelled by `none`). -/
theorem update_after_remove_not_noop_cex :
    registry_update (reg_remove (reg_insert [] 1 sample_entry) 1) 1
        anchor_unmount_update = none
  ∧ ∀ reg : Registry,
      registry_update (reg_remove (reg_insert [] 1 sample_entry) 1) 1
          anchor_unmount_update ≠ some reg :=
  ⟨rfl, fun _ h => Option.noConfusion h⟩

/-- C1 (amended): a registry update targeting an id that is absent from the
registry — in particular any id that has been removed — panics (`unwrap` on
`None`, modelled by `none`) for every mutation, instead of being a silent
no-op; and an id just registered and removed into an empty registry is indeed
absent. -/
theorem update_absent_id_panics :
    (∀ (reg : Registry) (id : Nat) (f : PortalEntryData → PortalEntryData),
        reg_lookup reg id = none → registry_update reg id f = none)
  ∧ ∀ (id : Nat) (e : PortalEntryData),
      reg_lookup (reg_remove (reg_insert [] id e) id) id = none := by
  constructor
  · intro reg id f h
    unfold registry_update
    rw [h]
  · intro id e
    simp [reg_insert, reg_remove, reg_lookup]

/-- Witness for `update_absent_id_panics`: the concrete run of the first
conjunct at the registry obtained by registering and removing id 1. -/
theorem update_absent_id_panics_witness :
    reg_lookup (reg_remove (reg_insert [] 1 sample_entry) 1) 1 = none
  ∧ registry_update (reg_remove (reg_insert [] 1 sample_entry) 1) 1
      content_unmount_update = none :=
  ⟨rfl, update_absent_id_panics.1 (reg_remove (reg_insert [] 1 sample_entry) 1)
    1 content_unmount_update rfl⟩

/-- C3 (counterexample): with the `Shrink` policy the output endpoints are not
both inside `[bounds.start, bounds.end]`: for `length 1`, alignment `Start`,
spread `Inside`, offset `0`, base `[100,100]` and bounds `[0,10]` the output
start is `100`, which exceeds `bounds.end = 10`. -/
theorem shrink_endpoint_escapes_bounds_cex :
    (calc_content_range 1
        { alignment := Alignment.Start, spread := Spread.Inside, offset := 0,
          overflow_policy := OverflowPolicy.Shrink }
        { start := 100, «end» := 100 } { start := 0, «end» := 10 }).start = 100
  ∧ ¬ ((calc_content_range 1
        { alignment := Alignment.Start, spread := Spread.Inside, offset := 0,
          overflow_policy := OverflowPolicy.Shrink }
        { start := 100, «end» := 100 } { start := 0, «end» := 10 }).start ≤ (10 : ℚ)) := by
  have h : calc_content_range 1
      { alignment := Alignment.Start, spread := Spread.Inside, offset := 0,
        overflow_policy := OverflowPolicy.Shrink }
      { start := 100, «end» := 100 } { start := 0, «end» := 10 } =
      { start := 100, «end» := 10 } := by
    rw [calc_content_range.eq_def]
    norm_num [desired_range, qmax, qmin]
  rw [h]
  norm_num

/-- C3 (amended): with the `Shrink` policy each endpoint is clamped on one
side only — `start = max(desired.start, bounds.start) ≥ bounds.start` and
`end = min(desired.end, bounds.end) ≤ bounds.end` (the start may still exceed
`bounds.end`, as the counterexample shows) — and whenever the desired range
fully contains `bounds` the output equals `bounds` exactly. -/
theorem shrink_one_sided_clamp (length : ℚ) (param : AxisParam)
    (base bounds : RangeQ)
    (hpol : param.overflow_policy = OverflowPolicy.Shrink) :
    bounds.start ≤ (calc_content_range length param base bounds).start
  ∧ (calc_content_range length param base bounds).«end» ≤ bounds.«end»
  ∧ ((desired_range length param base).start ≤ bounds.start ∧
       bounds.«end» ≤ (desired_range length param base).«end» →
      calc_content_range length param base bounds = bounds) := by
  rw [calc_shrink_eq length param base bounds hpol]
  refine ⟨le_qmax_right _ _, qmin_le_right _ _, ?_⟩
  rintro ⟨h1, h2⟩
  rw [qmax_eq_right h1, qmin_eq_right h2]

/-- Witness for `shrink_one_sided_clamp` at `length 1`, `(Start, Inside, 0,
Shrink)`, base `[100,100]`, bounds `[0,10]`. -/
theorem shrink_one_sided_clamp_witness :
    (0 : ℚ) ≤ (calc_content_range 1
        { alignment := Alignment.Start, spread := Spread.Inside, offset := 0,
          overflow_policy := OverflowPolicy.Shrink }
        { start := 100, «end» := 100 } { start := 0, «end» := 10 }).start
  ∧ (calc_content_range 1
        { alignment := Alignment.Start, spread := Spread.Inside, offset := 0,
          overflow_policy := OverflowPolicy.Shrink }
        { start := 100, «end» := 100 } { start := 0, «end» := 10 }).«end» ≤ (10 : ℚ)
  ∧ ((desired_range 1
        { alignment := Alignment.Start, spread := Spread.Inside, offset := 0,
          overflow_policy := OverflowPolicy.Shrink }
        { start := 100, «end» := 100 }).start ≤ (0 : ℚ) ∧
      (10 : ℚ) ≤ (desired_range 1
        { alignment := Alignment.Start, spread := Spread.Inside, offset := 0,
          overflow_policy := OverflowPolicy.Shrink }
        { start := 100, «end» := 100 }).«end» →
      calc_content_range 1
        { alignment := Alignment.Start, spread := Spread.Inside, offset := 0,
          overflow_policy := OverflowPolicy.Shrink }
        { start := 100, «end» := 100 } { start := 0, «end» := 10 } =
        { start := 0, «end» := 10 }) :=
  shrink_one_sided_clamp 1
    { alignment := Alignment.Start, spread := Spread.Inside, offset := 0,
      overflow_policy := OverflowPolicy.Shrink }
    { start := 100, «end» := 100 } { start := 0, «end» := 10 } rfl

/-- C4: with policy `Flip` and alignment `Start` or `End`, the solver keeps
the desired range when it lies within bounds, and otherwise equals a single
run with the opposite alignment (`Start`↔`End`), the same spread and offset,
and policy `Clamp` — which by definition recurses no further. -/
theorem flip_fits_or_single_clamp_recursion (length : ℚ) (param : AxisParam)
    (base bounds : RangeQ)
    (hpol : param.overflow_policy = OverflowPolicy.Flip)
    (hal : param.alignment = Alignment.Start ∨ param.alignment = Alignment.End) :
    (bounds.start ≤ (desired_range length param base).start ∧
        (desired_range length param base).«end» ≤ bounds.«end» →
      calc_content_range length param base bounds =
        desired_range length param base)
  ∧ (¬ (bounds.start ≤ (desired_range length param base).start ∧
          (desired_range length param base).«end» ≤ bounds.«end») →
      (param.alignment = Alignment.Start →
        calc_content_range length param base bounds =
          calc_content_range length
            { alignment := Alignment.End, spread := param.spread,
              offset := param.offset,
              overflow_policy := OverflowPolicy.Clamp } base bounds)
    ∧ (param.alignment = Alignment.End →
        calc_content_range length param base bounds =
          calc_content_range length
            { alignment := Alignment.Start, spread := param.spread,
              offset := param.offset,
              overflow_policy := OverflowPolicy.Clamp } base bounds)) := by
  have hne : param.alignment ≠ Alignment.Center := by
    rcases hal with h | h <;> rw [h] <;> simp
  have he := calc_flip_eq length param base bounds hpol hne
  constructor
  · intro hfit
    rw [he, if_pos hfit]
  · intro hnf
    rw [he, if_neg hnf]
    constructor
    · intro hs
      rw [hs]
      rfl
    · intro hs
      rw [hs]
      rfl

/-- Witness for `flip_fits_or_single_clamp_recursion` at `length 5`,
`(Start, Inside, 0, Flip)`, base `[0,0]`, bounds `[0,3]` (the desired range
`[0,5]` does not fit, so the flipped `Clamp` run applies). -/
theorem flip_fits_or_single_clamp_recursion_witness :
    ((0:ℚ) ≤ (desired_range 5
        { alignment := Alignment.Start, spread := Spread.Inside, offset := 0,
          overflow_policy := OverflowPolicy.Flip } { start := 0, «end» := 0 }).start ∧
      (desired_range 5
        { alignment := Alignment.Start, spread := Spread.Inside, offset := 0,
          overflow_policy := OverflowPolicy.Flip } { start := 0, «end» := 0 }).«end» ≤ (3:ℚ) →
      calc_content_range 5
        { alignment := Alignment.Start, spread := Spread.Inside, offset := 0,
          overflow_policy := OverflowPolicy.Flip }
        { start := 0, «end» := 0 } { start := 0, «end» := 3 } =
        desired_range 5
          { alignment := Alignment.Start, spread := Spread.Inside, offset := 0,
            overflow_policy := OverflowPolicy.Flip } { start := 0, «end» := 0 })
  ∧ (¬ ((0:ℚ) ≤ (desired_range 5
        { alignment := Alignment.Start, spread := Spread.Inside, offset := 0,
          overflow_policy := OverflowPolicy.Flip } { start := 0, «end» := 0 }).start ∧
      (desired_range 5
        { alignment := Alignment.Start, spread := Spread.Inside, offset := 0,
          overflow_policy := OverflowPolicy.Flip } { start := 0, «end» := 0 }).«end» ≤ (3:ℚ)) →
      (Alignment.Start = Alignment.Start →
        calc_content_range 5
          { alignment := Alignment.Start, spread := Spread.Inside, offset := 0,
            overflow_policy := OverflowPolicy.Flip }
          { start := 0, «end» := 0 } { start := 0, «end» := 3 } =
          calc_content_range 5
            { alignment := Alignment.End, spread := Spread.Inside, offset := 0,
              overflow_policy := OverflowPolicy.Clamp }
            { start := 0, «end» := 0 } { start := 0, «end» := 3 })
    ∧ (Alignment.Start = Alignment.End →
        calc_content_range 5
          { alignment := Alignment.Start, spread := Spread.Inside, offset := 0,
            overflow_policy := OverflowPolicy.Flip }
          { start := 0, «end» := 0 } { start := 0, «end» := 3 } =
          calc_content_range 5
            { alignment := Alignment.Start, spread := Spread.Inside, offset := 0,
              overflow_policy := OverflowPolicy.Clamp }
            { start := 0, «end» := 0 } { start := 0, «end» := 3 })) :=
  flip_fits_or_single_clamp_recursion 5
    { alignment := Alignment.Start, spread := Spread.Inside, offset := 0,
      overflow_policy := OverflowPolicy.Flip }
    { start := 0, «end» := 0 } { start := 0, «end» := 3 } rfl (Or.inl rfl)

/-- C5: with the `Ignore` policy the solver returns a range of size exactly
`length`, positioned by the documented base-point formula of each
`(alignment, spread)` combination, and is independent of `bounds`. -/
theorem ignore_policy_exact_length_placement (length : ℚ) (param : AxisParam)
    (base bounds : RangeQ)
    (hpol : param.overflow_policy = OverflowPolicy.Ignore) :
    ((calc_content_range length param base bounds).«end» -
        (calc_content_range length param base bounds).start = length)
  ∧ (param.alignment = Alignment.Center →
      (calc_content_range length param base bounds).start =
        (base.start + base.«end») * 0.5 + param.offset - length * 0.5)
  ∧ (param.alignment = Alignment.Start → param.spread = Spread.Inside →
      (calc_content_range length param base bounds).start =
        base.start + param.offset)
  ∧ (param.alignment = Alignment.Start → param.spread = Spread.Outside →
      (calc_content_range length param base bounds).«end» =
        base.start - param.offset)
  ∧ (param.alignment = Alignment.End → param.spread = Spread.Inside →
      (calc_content_range length param base bounds).«end» =
        base.«end» - param.offset)
  ∧ (param.alignment = Alignment.End → param.spread = Spread.Outside →
      (calc_content_range length param base bounds).start =
        base.«end» + param.offset)
  ∧ ∀ bounds2 : RangeQ,
      calc_content_range length param base bounds2 =
        calc_content_range length param base bounds := by
  have hd := calc_ignore_eq length param base bounds hpol
  refine ⟨?_, ?_, ?_, ?_, ?_, ?_, ?_⟩
  · rw [hd]
    exact desired_range_size length param base
  · intro hal
    rw [hd, desired_range_center length param base hal]
  · intro hal hsp
    rw [hd]
    obtain ⟨al, sp, off, pol⟩ := param
    change al = Alignment.Start at hal
    change sp = Spread.Inside at hsp
    subst hal
    subst hsp
    rfl
  · intro hal hsp
    rw [hd]
    obtain ⟨al, sp, off, pol⟩ := param
    change al = Alignment.Start at hal
    change sp = Spread.Outside at hsp
    subst hal
    subst hsp
    rfl
  · intro hal hsp
    rw [hd]
    obtain ⟨al, sp, off, pol⟩ := param
    change al = Alignment.End at hal
    change sp = Spread.Inside at hsp
    subst hal
    subst hsp
    rfl
  · intro hal hsp
    rw [hd]
    obtain ⟨al, sp, off, pol⟩ := param
    change al = Alignment.End at hal
    change sp = Spread.Outside at hsp
    subst hal
    subst hsp
    rfl
  · intro bounds2
    rw [hd, calc_ignore_eq length param base bounds2 hpol]

/-- Witness for `ignore_policy_exact_length_placement` at `length 2`,
`(Start, Outside, 1, Ignore)`, base `[4,9]`, bounds `[0,1]`. -/
theorem ignore_policy_exact_length_placement_witness :
    ((calc_content_range 2
        { alignment := Alignment.Start, spread := Spread.Outside, offset := 1,
          overflow_policy := OverflowPolicy.Ignore }
        { start := 4, «end» := 9 } { start := 0, «end» := 1 }).«end» -
      (calc_content_range 2
        { alignment := Alignment.Start, spread := Spread.Outside, offset := 1,
          overflow_policy := OverflowPolicy.Ignore }
        { start := 4, «end» := 9 } { start := 0, «end» := 1 }).start = 2)
  ∧ (Alignment.Start = Alignment.Center →
      (calc_content_range 2
        { alignment := Alignment.Start, spread := Spread.Outside, offset := 1,
          overflow_policy := OverflowPolicy.Ignore }
        { start := 4, «end» := 9 } { start := 0, «end» := 1 }).start =
        ((4:ℚ) + 9) * 0.5 + 1 - 2 * 0.5)
  ∧ (Alignment.Start = Alignment.Start → Spread.Outside = Spread.Inside →
      (calc_content_range 2
        { alignment := Alignment.Start, spread := Spread.Outside, offset := 1,
          overflow_policy := OverflowPolicy.Ignore }
        { start := 4, «end» := 9 } { start := 0, «end» := 1 }).start = (4:ℚ) + 1)
  ∧ (Alignment.Start = Alignment.Start → Spread.Outside = Spread.Outside →
      (calc_content_range 2
        { alignment := Alignment.Start, spread := Spread.Outside, offset := 1,
          overflow_policy := OverflowPolicy.Ignore }
        { start := 4, «end» := 9 } { start := 0, «end» := 1 }).«end» = (4:ℚ) - 1)
  ∧ (Alignment.Start = Alignment.End → Spread.Outside = Spread.Inside →
      (calc_content_range 2
        { alignment := Alignment.Start, spread := Spread.Outside, offset := 1,
          overflow_policy := OverflowPolicy.Ignore }
        { start := 4, «end» := 9 } { start := 0, «end» := 1 }).«end» = (9:ℚ) - 1)
  ∧ (Alignment.Start = Alignment.End → Spread.Outside = Spread.Outside →
      (calc_content_range 2
        { alignment := Alignment.Start, spread := Spread.Outside, offset := 1,
          overflow_policy := OverflowPolicy.Ignore }
        { start := 4, «end» := 9 } { start := 0, «end» := 1 }).start = (9:ℚ) + 1)
  ∧ ∀ bounds2 : RangeQ,
      calc_content_range 2
        { alignment := Alignment.Start, spread := Spread.Outside, offset := 1,
          overflow_policy := OverflowPolicy.Ignore }
        { start := 4, «end» := 9 } bounds2 =
        calc_content_range 2
          { alignment := Alignment.Start, spread := Spread.Outside, offset := 1,
            overflow_policy := OverflowPolicy.Ignore }
          { start := 4, «end» := 9 } { start := 0, «end» := 1 } :=
  ignore_policy_exact_length_placement 2
    { alignment := Alignment.Start, spread := Spread.Outside, offset := 1,
      overflow_policy := OverflowPolicy.Ignore }
    { start := 4, «end» := 9 } { start := 0, «end» := 1 } rfl

/-- C9: the solver is total — for every finite input the fueled mirror of its
recursion terminates within fuel 2 and agrees with the solver (the embedding
is over `ℚ`, where every step is exact: the source performs no division and
so cannot produce NaN) — while `Shrink` may legitimately return an inverted
range (`end < start`), as on base `[50,50]`, bounds `[0,20]`, length `1`. -/
theorem solver_total_fuel_two_and_may_invert :
    (∀ (length : ℚ) (param : AxisParam) (base bounds : RangeQ),
        calc_content_range_fuel 2 length param base bounds =
          some (calc_content_range length param base bounds))
  ∧ (calc_content_range 1
        { alignment := Alignment.Start, spread := Spread.Inside, offset := 0,
          overflow_policy := OverflowPolicy.Shrink }
        { start := 50, «end» := 50 } { start := 0, «end» := 20 }).«end» <
      (calc_content_range 1
        { alignment := Alignment.Start, spread := Spread.Inside, offset := 0,
          overflow_policy := OverflowPolicy.Shrink }
        { start := 50, «end» := 50 } { start := 0, «end» := 20 }).start := by
  constructor
  · exact fun length param base bounds =>
      calc_content_range_fuel_two length param base bounds
  · have h : calc_content_range 1
        { alignment := Alignment.Start, spread := Spread.Inside, offset := 0,
          overflow_policy := OverflowPolicy.Shrink }
        { start := 50, «end» := 50 } { start := 0, «end» := 20 } =
        { start := 50, «end» := 20 } := by
      rw [calc_content_range.eq_def]
      norm_num [desired_range, qmax, qmin]
    rw [h]
    norm_num

/-- Unfolding of `calc_content_position` in the no-anchor case: `spread` is
forced to `Inside` on both axes and the outlet bounds serve as both base and
bounds. -/
theorem calc_content_position_none (data : PortalEntryData)
    (content_size : SizeQ) (bounds : Rect) :
    calc_content_position data content_size none bounds =
      { x := (calc_content_range content_size.width
                { alignment := data.horizontal_param.alignment,
                  spread := Spread.Inside,
                  offset := data.horizontal_param.offset,
                  overflow_policy := data.horizontal_param.overflow_policy }
                { start := bounds.min_x, «end» := bounds.max_x }
                { start := bounds.min_x, «end» := bounds.max_x }).start,
        y := (calc_content_range content_size.height
                { alignment := data.vertical_param.alignment,
                  spread := Spread.Inside,
                  offset := data.vertical_param.offset,
                  overflow_policy := data.vertical_param.overflow_policy }
                { start := bounds.min_y, «end» := bounds.max_y }
                { start := bounds.min_y, «end» := bounds.max_y }).start } := rfl

/-- C6: with no anchor rectangle, `calc_content_position` forces
`spread = Inside` on both axes, runs the solver with the outlet bounds as both
base and bounds, and returns the two range starts; concretely, for bounds
`{x:0, y:0, w:800, h:600}`, content `200×100`, `Center` alignment with offset
`0` on both axes — for every spread and overflow policy — the result is
`(300, 250)`. -/
theorem no_anchor_forces_inside_and_centers :
    (∀ (data : PortalEntryData) (content_size : SizeQ) (bounds : Rect),
        calc_content_position data content_size none bounds =
          { x := (calc_content_range content_size.width
                    { alignment := data.horizontal_param.alignment,
                      spread := Spread.Inside,
                      offset := data.horizontal_param.offset,
                      overflow_policy := data.horizontal_param.overflow_policy }
                    { start := bounds.min_x, «end» := bounds.max_x }
                    { start := bounds.min_x, «end» := bounds.max_x }).start,
            y := (calc_content_range content_size.height
                    { alignment := data.vertical_param.alignment,
                      spread := Spread.Inside,
                      offset := data.vertical_param.offset,
                      overflow_policy := data.vertical_param.overflow_policy }
                    { start := bounds.min_y, «end» := bounds.max_y }
                    { start := bounds.min_y, «end» := bounds.max_y }).start })
  ∧ (∀ e : PortalEntryData,
        e.vertical_param.alignment = Alignment.Center →
        e.vertical_param.offset = 0 →
        e.horizontal_param.alignment = Alignment.Center →
        e.horizontal_param.offset = 0 →
        calc_content_position e { width := 200, height := 100 } none
          { origin := { x := 0, y := 0 },
            size := { width := 800, height := 600 } } =
          { x := 300, y := 250 }) := by
  constructor
  · exact fun data content_size bounds =>
      calc_content_position_none data content_size bounds
  · intro e h1 h2 h3 h4
    obtain ⟨i, op, ly, hac, mar, car, vp, hp, ct, ov⟩ := e
    obtain ⟨va, vs, vo, vpol⟩ := vp
    obtain ⟨ha, hs, ho, hpol⟩ := hp
    change va = Alignment.Center at h1
    change vo = (0 : ℚ) at h2
    change ha = Alignment.Center at h3
    change ho = (0 : ℚ) at h4
    subst h1
    subst h2
    subst h3
    subst h4
    rw [calc_content_position_none]
    have hh := calc_center_fits 200
      { alignment := Alignment.Center, spread := Spread.Inside, offset := 0,
        overflow_policy := hpol }
      { start := 0, «end» := 0 + 800 } { start := 0, «end» := 0 + 800 } rfl
      (by rw [desired_range_center _ _ _ rfl]; norm_num)
      (by rw [desired_range_center _ _ _ rfl]; norm_num)
    have hv := calc_center_fits 100
      { alignment := Alignment.Center, spread := Spread.Inside, offset := 0,
        overflow_policy := vpol }
      { start := 0, «end» := 0 + 600 } { start := 0, «end» := 0 + 600 } rfl
      (by rw [desired_range_center _ _ _ rfl]; norm_num)
      (by rw [desired_range_center _ _ _ rfl]; norm_num)
    show PointQ.mk (calc_content_range 200
        { alignment := Alignment.Center, spread := Spread.Inside, offset := 0,
          overflow_policy := hpol }
        { start := 0, «end» := 0 + 800 } { start := 0, «end» := 0 + 800 }).start
      (calc_content_range 100
        { alignment := Alignment.Center, spread := Spread.Inside, offset := 0,
          overflow_policy := vpol }
        { start := 0, «end» := 0 + 600 } { start := 0, «end» := 0 + 600 }).start =
      { x := 300, y := 250 }
    rw [hh, hv, desired_range_center _ _ _ rfl, desired_range_center _ _ _ rfl]
    norm_num

/-- A record whose two axes are centered with offset 0 but carry `Outside`
spreads and non-`Clamp` policies (both irrelevant in the no-anchor case). -/
def sample_center_entry : PortalEntryData :=
  { sample_entry with
      vertical_param :=
        { alignment := Alignment.Center, spread := Spread.Outside,
          offset := 0, overflow_policy := OverflowPolicy.Flip },
      horizontal_param :=
        { alignment := Alignment.Center, spread := Spread.Outside,
          offset := 0, overflow_policy := OverflowPolicy.Shrink } }

/-- Witness for `no_anchor_forces_inside_and_centers`: the concrete centered
placement at an 800×600 outlet. -/
theorem no_anchor_forces_inside_and_centers_witness :
    sample_center_entry.vertical_param.alignment = Alignment.Center
  ∧ calc_content_position sample_center_entry { width := 200, height := 100 }
      none
      { origin := { x := 0, y := 0 },
        size := { width := 800, height := 600 } } =
      { x := 300, y := 250 } :=
  ⟨rfl, no_anchor_forces_inside_and_centers.2 sample_center_entry
    rfl rfl rfl rfl⟩

-- ------ Stable sort lemmas for the outlet snapshot ------

theorem insert_sorted_perm (x : Nat × Int) (l : List (Nat × Int)) :
    List.Perm (insert_sorted_by_layer x l) (x :: l) := by
  induction l with
  | nil => exact List.Perm.refl _
  | cons y ys ih =>
      unfold insert_sorted_by_layer
      split
      · exact List.Perm.refl _
      · exact (List.Perm.cons y ih).trans (List.Perm.swap x y ys)

theorem sort_by_layer_perm (l : List (Nat × Int)) :
    List.Perm (sort_by_layer l) l := by
  induction l with
  | nil => exact List.Perm.refl _
  | cons x xs ih =>
      exact (insert_sorted_perm x (sort_by_layer xs)).trans (List.Perm.cons x ih)

theorem insert_sorted_pairwise (x : Nat × Int) (l : List (Nat × Int))
    (h : List.Pairwise (fun a b => a.2 ≤ b.2) l) :
    List.Pairwise (fun a b => a.2 ≤ b.2) (insert_sorted_by_layer x l) := by
  induction l with
  | nil => simp [insert_sorted_by_layer]
  | cons y ys ih =>
      rw [List.pairwise_cons] at h
      obtain ⟨hy, hys⟩ := h
      unfold insert_sorted_by_layer
      split
      · rename_i hle
        rw [List.pairwise_cons]
        refine ⟨?_, ?_⟩
        · intro z hz
          rcases List.mem_cons.mp hz with rfl | hz'
          · exact hle
          · exact le_trans hle (hy z hz')
        · rw [List.pairwise_cons]
          exact ⟨hy, hys⟩
      · rename_i hgt
        rw [List.pairwise_cons]
        refine ⟨?_, ih hys⟩
        intro z hz
        have hz' := (insert_sorted_perm x ys).mem_iff.mp hz
        rcases List.mem_cons.mp hz' with rfl | hz''
        · exact le_of_not_le hgt
        · exact hy z hz''

theorem sort_by_layer_pairwise (l : List (Nat × Int)) :
    List.Pairwise (fun a b => a.2 ≤ b.2) (sort_by_layer l) := by
  induction l with
  | nil => exact List.Pairwise.nil
  | cons x xs ih => exact insert_sorted_pairwise x _ ih

theorem filter_insert_sorted (L : Int) (x : Nat × Int)
    (l : List (Nat × Int)) :
    (insert_sorted_by_layer x l).filter (fun p => p.2 == L) =
      if x.2 == L then x :: l.filter (fun p => p.2 == L)
      else l.filter (fun p => p.2 == L) := by
  induction l with
  | nil =>
      unfold insert_sorted_by_layer
      rw [List.filter_cons]
  | cons y ys ih =>
      unfold insert_sorted_by_layer
      split
      · rw [List.filter_cons]
      · rename_i hgt
        rw [List.filter_cons, ih, List.filter_cons]
        by_cases hx : x.2 = L
        · have hyn : ¬ y.2 = L := fun hyL => hgt (le_of_eq (hx.trans hyL.symm))
          simp [hx, hyn]
        · simp [hx]

theorem filter_sort_by_layer (L : Int) (l : List (Nat × Int)) :
    (sort_by_layer l).filter (fun p => p.2 == L) =
      l.filter (fun p => p.2 == L) := by
  induction l with
  | nil => rfl
  | cons x xs ih =>
      unfold sort_by_layer
      rw [filter_insert_sorted, ih, List.filter_cons]

-- Sample entries with a layer tie, both open.

/-- An open record with id 1 on layer 5. -/
def tie_entry_a : PortalEntryData := { sample_entry with id := 1, layer := 5 }

/-- An open record with id 2 on layer 5. -/
def tie_entry_b : PortalEntryData := { sample_entry with id := 2, layer := 5 }

/-- C7 (counterexample): the outlet snapshot is built from
`HashMap::values()` iteration order, which the standard library leaves
unspecified; for the same registry contents (two open portals on the same
layer, inserted as id 1 then id 2) the two possible iteration orders yield
different snapshots, so equal-layer ties do not preserve insertion order. -/
theorem snapshot_tie_order_depends_on_iteration_cex :
    snapshot_open_sorted_by_layer [tie_entry_a, tie_entry_b] = [1, 2]
  ∧ snapshot_open_sorted_by_layer [tie_entry_b, tie_entry_a] = [2, 1]
  ∧ List.Perm [tie_entry_a, tie_entry_b] [tie_entry_b, tie_entry_a]
  ∧ snapshot_open_sorted_by_layer [tie_entry_a, tie_entry_b] ≠
      snapshot_open_sorted_by_layer [tie_entry_b, tie_entry_a] := by
  refine ⟨?_, ?_, List.Perm.swap tie_entry_b tie_entry_a [], ?_⟩ <;> decide

/-- C7 (amended): the outlet snapshot contains exactly the ids whose `open`
flag is true, sorted ascending by `layer`; for equal layers the order is
stable with respect to the registry's `values()` iteration order (each layer
class appears in iteration order), which the Rust `HashMap` leaves
unspecified — it need not be insertion order. -/
theorem snapshot_sorted_stable_in_iteration_order :
    (∀ values : List PortalEntryData,
        List.Pairwise (fun a b : Nat × Int => a.2 ≤ b.2)
          (sort_by_layer (open_layer_pairs values)))
  ∧ (∀ (values : List PortalEntryData) (L : Int),
        (sort_by_layer (open_layer_pairs values)).filter (fun p => p.2 == L) =
          (open_layer_pairs values).filter (fun p => p.2 == L))
  ∧ (∀ values : List PortalEntryData,
        List.Perm (sort_by_layer (open_layer_pairs values))
          (open_layer_pairs values))
  ∧ (∀ (values : List PortalEntryData) (i : Nat),
        i ∈ snapshot_open_sorted_by_layer values ↔
          ∃ d, d ∈ values ∧ d.«open» = true ∧ d.id = i) := by
  refine ⟨fun values => sort_by_layer_pairwise _,
          fun values L => filter_sort_by_layer L _,
          fun values => sort_by_layer_perm _, ?_⟩
  intro values i
  unfold snapshot_open_sorted_by_layer
  rw [List.mem_map]
  constructor
  · rintro ⟨p, hp, rfl⟩
    have hp' := (sort_by_layer_perm _).mem_iff.mp hp
    unfold open_layer_pairs at hp'
    rw [List.mem_map] at hp'
    obtain ⟨d, hd, rfl⟩ := hp'
    rw [List.mem_filter] at hd
    exact ⟨d, hd.1, hd.2, rfl⟩
  · rintro ⟨d, hd, hopen, rfl⟩
    refine ⟨(d.id, d.layer), ?_, rfl⟩
    rw [(sort_by_layer_perm _).mem_iff]
    unfold open_layer_pairs
    rw [List.mem_map]
    exact ⟨d, List.mem_filter.mpr ⟨hd, hopen⟩, rfl⟩

-- ------ rfind characterisation for the overlay owner ------

theorem find?_eq_head_filter (p : Nat → Bool) (l : List Nat) :
    l.find? p = (l.filter p).head? := by
  induction l with
  | nil => rfl
  | cons x xs ih =>
      cases hpx : p x
      · rw [List.find?_cons_of_neg _ (by simp [hpx]),
          List.filter_cons_of_neg (by simp [hpx]), ih]
      · rw [List.find?_cons_of_pos _ hpx, List.filter_cons_of_pos hpx]
        rfl

theorem rfind_eq_getLast_filter (p : Nat → Bool) (l : List Nat) :
    l.reverse.find? p = (l.filter p).getLast? := by
  rw [find?_eq_head_filter, List.filter_reverse, List.head?_reverse]

/-- At most one element of a nodup list equals a fixed optional value under
`==`. -/
theorem length_filter_beq_some_le_one (t : Option Nat) (l : List Nat)
    (h : l.Nodup) : (l.filter (fun id => t == some id)).length ≤ 1 := by
  induction l with
  | nil => simp
  | cons x xs ih =>
      rw [List.nodup_cons] at h
      obtain ⟨hx, hxs⟩ := h
      rw [List.filter_cons]
      by_cases ht : t = some x
      · rw [if_pos (by simp [ht])]
        have hnil : xs.filter (fun id => t == some id) = [] := by
          rw [List.filter_eq_nil_iff]
          intro a ha hbeq
          have : t = some a := eq_of_beq hbeq
          rw [ht] at this
          exact hx ((Option.some.inj this) ▸ ha)
        rw [hnil]
        simp
      · rw [if_neg (by simp [ht])]
        exact ih hxs

-- Sample registry: three open portals on layers 1, 2, 3; only the layer-1 and
-- layer-3 portals have overlays.

/-- Open portal id 10 on layer 1, with an overlay. -/
def demo_overlay_low : PortalEntryData :=
  { sample_entry with
      id := 10, layer := 1,
      overlay := some { style := "backdrop-low" } }

/-- Open portal id 20 on layer 2, without overlay. -/
def demo_plain_mid : PortalEntryData :=
  { sample_entry with id := 20, layer := 2 }

/-- Open portal id 30 on layer 3, with an overlay. -/
def demo_overlay_top : PortalEntryData :=
  { sample_entry with
      id := 30, layer := 3,
      overlay := some { style := "backdrop-top" } }

/-- The registry holding the three sample portals. -/
def demo_registry : Registry :=
  [(10, demo_overlay_low), (20, demo_plain_mid), (30, demo_overlay_top)]

/-- C8: the outlet's overlay owner is the last entry of the layer-ordered
sequence whose overlay registration is non-null (`none` exactly when no listed
portal has one), only one overlay is ever rendered, and on the concrete
registry with layers `[1,2,3]` and overlays on layers 1 and 3 the layer-3
portal (id 30) is selected. -/
theorem topmost_overlay_is_last_with_overlay :
    (∀ (entries : Registry) (ids : List Nat),
        topmost_with_overlay entries ids =
          (ids.filter (fun id =>
            ((reg_lookup entries id).map (fun e => e.overlay.isSome)).getD
              false)).getLast?)
  ∧ (∀ (entries : Registry) (ids : List Nat),
        topmost_with_overlay entries ids = none ↔
          ∀ id ∈ ids,
            ¬ (((reg_lookup entries id).map
                (fun e => e.overlay.isSome)).getD false = true))
  ∧ (∀ (entries : Registry) (ids : List Nat),
        ids.Nodup → (rendered_overlay_ids entries ids).length ≤ 1)
  ∧ topmost_with_overlay demo_registry [10, 20, 30] = some 30
  ∧ snapshot_open_sorted_by_layer
      [demo_overlay_low, demo_plain_mid, demo_overlay_top] = [10, 20, 30] := by
  refine ⟨?_, ?_, ?_, ?_, ?_⟩
  · intro entries ids
    exact rfind_eq_getLast_filter _ ids
  · intro entries ids
    unfold topmost_with_overlay
    rw [List.find?_eq_none]
    constructor
    · intro h id hid
      exact h id (List.mem_reverse.mpr hid)
    · intro h id hid
      exact h id (List.mem_reverse.mp hid)
  · intro entries ids hnd
    unfold rendered_overlay_ids
    exact length_filter_beq_some_le_one _ ids hnd
  · decide
  · decide

/-- Witness for `topmost_overlay_is_last_with_overlay`: on the nodup sequence
`[10, 20, 30]` of the sample registry only one overlay is rendered. -/
theorem topmost_overlay_is_last_with_overlay_witness :
    List.Nodup [10, 20, 30]
  ∧ (rendered_overlay_ids demo_registry [10, 20, 30]).length ≤ 1 :=
  ⟨by decide, topmost_overlay_is_last_with_overlay.2.2.1 demo_registry
    [10, 20, 30] (by decide)⟩

end DioxusPortal
